import Mathlib

/-!
Verification development for the skinport-trader repository.

Shallow embedding conventions:
* Python floats are modelled as exact rationals (`ℚ`); the source performs
  only field arithmetic and comparisons on them.
* Python dict lookups (`d.get(k)` / `d.get(k, default)`) are modelled as
  `Option` fields and `Option.getD`.
* Python truthiness of an optional number (`if not x`) is `none` or `some 0`.
* Timestamps (`datetime.now()` etc.) are modelled as rational seconds on a
  simulated clock, passed in explicitly.
* `reason` strings are built with `toString` on rationals; the Python
  `:.1f` float formatting is abstracted (no claim depends on the text).
-/

namespace Skinport

/-- Signal classification enum (`SignalType` in skinport_collector.py).
`TRAP` is the insufficient-volume classification. -/
inductive SignalType where
  | UNDERPRICED
  | MOMENTUM
  | REVERSAL
  | TRAP
deriving DecidableEq, Repr

/-- The `TradingSignal` dataclass of skinport_collector.py (the DB-only
`item`/`id` fields are omitted; they are never set by the signal engine). -/
structure TradingSignal where
  timestamp : ℚ
  item_name : String
  signal_type : SignalType
  z_score : ℚ
  volume_24h : ℚ
  edge_net : ℚ
  spread : ℚ
  reason : String
  confidence : ℚ
deriving DecidableEq, Repr

/-- The fields of the `/items` snapshot record that `detect_signals` reads. -/
structure ItemData where
  min_price : Option ℚ
  market_hash_name : Option String
deriving DecidableEq, Repr

/-- One trailing-window statistics bucket of the `/sales/history` response
(the fields the engine reads: avg, median, volume). -/
structure WindowStats where
  avg : Option ℚ
  median : Option ℚ
  volume : Option ℚ
deriving DecidableEq, Repr

/-- The empty dict default of the `history.get(window)` lookups. -/
def emptyStats : WindowStats := ⟨none, none, none⟩

/-- The `/sales/history` aggregate record (windows the engine reads). -/
structure History where
  last_24_hours : Option WindowStats
  last_7_days : Option WindowStats
  last_30_days : Option WindowStats
deriving DecidableEq, Repr

/-- The `SignalEngine` configuration (constructor arguments). -/
structure SignalEngine where
  z_threshold : ℚ
  min_volume_24h : ℚ
  min_edge : ℚ
  max_spread : ℚ
deriving DecidableEq, Repr

/-- `SignalEngine` with the constructor's default arguments
(z_threshold=-2.0, min_volume_24h=5, min_edge=3.0, max_spread=0.15). -/
def defaultEngine : SignalEngine := ⟨-2, 5, 3, 15/100⟩

/-- `SignalEngine.calculate_edge`: net edge after fee and slippage, as a
percentage of the buy price. -/
def calculate_edge (buy_price sell_price skinport_fee slippage : ℚ) : ℚ :=
  let gross_profit := sell_price - buy_price
  let fees := sell_price * skinport_fee
  let slippage_cost := sell_price * slippage
  let net_profit := gross_profit - fees - slippage_cost
  (net_profit / buy_price) * 100

/-- `SignalEngine.detect_signals`.  `now` is the wall-clock reading taken at
the top of the function; it flows only into the output's timestamp field.
`history = none` models a falsy (absent or empty) history dict. -/
def detect_signals (e : SignalEngine) (now : ℚ) (item_data : ItemData)
    (history : Option History) : Option TradingSignal :=
  match history with
  | none => none
  | some h =>
    match item_data.min_price with
    | none => none
    | some current_price =>
      -- `if not current_price: return None` (0 is falsy)
      if current_price = 0 then none
      else
        let stats_7d := h.last_7_days.getD emptyStats
        let stats_24h := h.last_24_hours.getD emptyStats
        let volume_24h := stats_24h.volume.getD 0
        if volume_24h < e.min_volume_24h then
          some { timestamp := now
                 item_name := item_data.market_hash_name.getD "Unknown"
                 signal_type := SignalType.TRAP
                 z_score := 0
                 volume_24h := volume_24h
                 edge_net := 0
                 spread := 0
                 reason := "Volume insuffisant (" ++ toString volume_24h
                   ++ " ventes/24h)"
                 confidence := 0 }
        else
          match stats_7d.median, stats_7d.avg with
          | some median_7d, some avg_7d =>
            -- `if not median_7d or not avg_7d: return None`
            if median_7d = 0 ∨ avg_7d = 0 then none
            else
              let price_diff_pct := ((current_price - median_7d) / median_7d) * 100
              let z_score := price_diff_pct / 10
              let spread : ℚ := 5/100
              let edge := calculate_edge current_price median_7d (12/100) (1/100)
              if price_diff_pct < -15 ∧ edge > e.min_edge ∧
                  volume_24h ≥ e.min_volume_24h then
                some { timestamp := now
                       item_name := item_data.market_hash_name.getD "Unknown"
                       signal_type := SignalType.UNDERPRICED
                       z_score := z_score
                       volume_24h := volume_24h
                       edge_net := edge
                       spread := spread
                       reason := "Prix " ++ toString (abs price_diff_pct)
                         ++ "% sous mediane 7j, edge " ++ toString edge ++ "%"
                       confidence := min (abs price_diff_pct) 95 }
              else
                -- `if avg_24h and avg_7d and avg_24h > avg_7d:`
                match stats_24h.avg with
                | some avg_24h =>
                  if avg_24h ≠ 0 ∧ avg_7d ≠ 0 ∧ avg_24h > avg_7d then
                    let momentum_pct := ((avg_24h - avg_7d) / avg_7d) * 100
                    if momentum_pct > 8 ∧
                        volume_24h ≥ e.min_volume_24h * (3/2) then
                      some { timestamp := now
                             item_name := item_data.market_hash_name.getD "Unknown"
                             signal_type := SignalType.MOMENTUM
                             z_score := z_score
                             volume_24h := volume_24h
                             edge_net := 0
                             spread := spread
                             reason := "Momentum +" ++ toString momentum_pct
                               ++ "% (24h vs 7j), volume eleve"
                             confidence := min (momentum_pct * 5) 90 }
                    else none
                  else none
                | none => none
          | _, _ => none

/-- The `PriceAlert` dataclass of skinport_tracker.py. -/
structure PriceAlert where
  skin_name : String
  current_price : ℚ
  median_7d : ℚ
  drop_percent : ℚ
  edge_percent : ℚ
  volume_24h : ℚ
  reason : String
  timestamp : ℚ
deriving DecidableEq, Repr

/-- `SkinportTracker.analyze_price`.  `now` models the `datetime.now()`
taken when the alert record is built. -/
def analyze_price (skin_name : String) (current_price : ℚ)
    (history : Option History) (drop_threshold min_edge skinport_fee now : ℚ) :
    Option PriceAlert :=
  match history with
  | none => none
  | some h =>
    let stats_7d := h.last_7_days.getD emptyStats
    let stats_24h := h.last_24_hours.getD emptyStats
    let volume_24h := stats_24h.volume.getD 0
    match stats_7d.median with
    | none => none
    | some median_7d =>
      -- `if not median_7d or median_7d == 0: return None`
      if median_7d = 0 then none
      else
        let drop_percent := ((median_7d - current_price) / median_7d) * 100
        if drop_percent < 0 then none
        else
          let gross_profit := median_7d - current_price
          let fees := median_7d * skinport_fee
          let net_profit := gross_profit - fees
          let edge_percent := (net_profit / current_price) * 100
          if drop_percent ≥ drop_threshold ∧ edge_percent ≥ min_edge then
            some { skin_name := skin_name
                   current_price := current_price
                   median_7d := median_7d
                   drop_percent := drop_percent
                   edge_percent := edge_percent
                   volume_24h := volume_24h
                   reason := "Prix " ++ toString drop_percent
                     ++ "% sous mediane 7j, edge net " ++ toString edge_percent ++ "%"
                   timestamp := now }
          else none

/-- `SkinportCollector.RATE_LIMIT_DELAY` (45 seconds). -/
def RATE_LIMIT_DELAY : ℚ := 45

/-- `SkinportCollector._rate_limit_wait` for one endpoint key, on a simulated
clock.  `last` is `last_request_time.get(endpoint)`, `now` the arrival time
of the call.  Returns the grant time (the moment the sleep, if any, finishes)
and the new stored value.  The source stores `now`, the arrival time captured
before sleeping, as the new last-request time. -/
def rateLimitWait (delay : ℚ) (last : Option ℚ) (now : ℚ) : ℚ × Option ℚ :=
  match last with
  | some t =>
    if now - t < delay then (now + (delay - (now - t)), some now)
    else (now, some now)
  | none => (now, some now)

/-- `_rate_limit_wait` over the per-endpoint map `last_request_time`. -/
def rateLimitWaitMap (delay : ℚ) (state : String → Option ℚ) (endpoint : String)
    (now : ℚ) : ℚ × (String → Option ℚ) :=
  let r := rateLimitWait delay (state endpoint) now
  (r.1, fun k => if k = endpoint then r.2 else state k)

/-- Grant times of a sequence of `_rate_limit_wait` calls for one endpoint
key, arriving at the given simulated clock times. -/
def grantTimes (delay : ℚ) : Option ℚ → List ℚ → List ℚ
  | _, [] => []
  | last, now :: rest =>
    let r := rateLimitWait delay last now
    r.1 :: grantTimes delay r.2 rest

/-- An HTTP response to the `/items` snapshot fetch: status plus, for 200,
the parsed item list, and for 429 the optional Retry-After header. -/
inductive ItemsResp where
  | ok (items : List ItemData)
  | throttled (retry_after : Option ℚ)
  | err (status : ℕ)
deriving DecidableEq, Repr

/-- The JSON body shape of a 200 `/sales/history` response: a list (the
provider quirk wraps the record in a single-element list), a bare dict,
or anything else. -/
inductive HistoryBody where
  | list (xs : List History)
  | dict (h : History)
  | other
deriving DecidableEq, Repr

/-- An HTTP response to the `/sales/history` fetch. -/
inductive HistoryResp where
  | ok (body : HistoryBody)
  | throttled (retry_after : Option ℚ)
  | err (status : ℕ)
deriving DecidableEq, Repr

/-- Observable outcome of one `SkinportCollector.get_items` call: the
returned list, the number of HTTP requests issued, and the inline sleep
taken before the retry when a 429 was hit. -/
structure ItemsFetch where
  result : List ItemData
  requests : ℕ
  sleep_before_retry : Option ℚ
deriving DecidableEq, Repr

/-- `SkinportCollector.get_items` (response-handling logic).  `r1` is the
first response; `r2` the response to the retry, consulted only on a 429.
On 429 the source sleeps a fixed 60 seconds — the Retry-After header is
not read — then retries exactly once. -/
def get_items (r1 r2 : ItemsResp) : ItemsFetch :=
  match r1 with
  | .ok data => ⟨data, 1, none⟩
  | .throttled _ =>
    match r2 with
    | .ok data => ⟨data, 2, some 60⟩
    | _ => ⟨[], 2, some 60⟩
  | .err _ => ⟨[], 1, none⟩

/-- Observable outcome of one `SkinportCollector.get_sales_history` call:
the parsed record, the number of HTTP requests issued, and the inline
sleep taken before returning (nonzero only on a 429). -/
structure HistoryFetch where
  result : Option History
  requests : ℕ
  sleep_before_return : ℚ
deriving DecidableEq, Repr

/-- `SkinportCollector.get_sales_history` (response-handling logic).  On a
429 the source sleeps `Retry-After` seconds (default 120 when the header
is absent) and returns None without retrying. -/
def get_sales_history (r : HistoryResp) : HistoryFetch :=
  match r with
  | .ok body =>
    match body with
    | .list (x :: _) => ⟨some x, 1, 0⟩
    | .list [] => ⟨none, 1, 0⟩
    | .dict h => ⟨some h, 1, 0⟩
    | .other => ⟨none, 1, 0⟩
  | .throttled retry_after => ⟨none, 1, retry_after.getD 120⟩
  | .err _ => ⟨none, 1, 0⟩

/-- The `AlertManager` anti-spam state of src/alerts.py: the minimum alert
interval (seconds) and the per-key last-sent ledger `last_alerts`. -/
structure AlertManager where
  min_alert_interval : ℚ
  last_alerts : String → Option ℚ

/-- The anti-spam ledger key: the item name and the signal type joined by
an underscore, as built by the f-string in `should_send_alert`. -/
def alert_key (item_name signal_type : String) : String :=
  item_name ++ "_" ++ signal_type

/-- `AlertManager.should_send_alert` on a simulated clock `now`
(`datetime.utcnow()` in the source).  Returns the decision and the updated
manager state. -/
def should_send_alert (m : AlertManager) (key : String) (now : ℚ) :
    Bool × AlertManager :=
  match m.last_alerts key with
  | some t =>
    if now - t < m.min_alert_interval then (false, m)
    else
      (true, { m with last_alerts := fun k => if k = key then some now
                        else m.last_alerts k })
  | none =>
    (true, { m with last_alerts := fun k => if k = key then some now
                      else m.last_alerts k })

/-- The time-independent payload of a signal: every `TradingSignal` field
except the timestamp. -/
def signalData (s : TradingSignal) :
    String × SignalType × ℚ × ℚ × ℚ × ℚ × String × ℚ :=
  (s.item_name, s.signal_type, s.z_score, s.volume_24h, s.edge_net, s.spread,
   s.reason, s.confidence)

/-- The snapshot record of the spec's end-to-end example: min_price 26.50. -/
def exampleItem : ItemData := ⟨some (53/2), some "AK-47 | Redline (Field-Tested)"⟩

/-- The history of the end-to-end example: 24h volume 15, 7d median and
mean 32, fee 0.12, slippage 0.01. -/
def exampleHist : History :=
  ⟨some ⟨none, none, some 15⟩, some ⟨some 32, some 32, none⟩, none⟩

/-- The history of the insufficient-volume example: 24h volume 2 < 5. -/
def lowVolumeHist : History :=
  ⟨some ⟨none, none, some 2⟩, some ⟨some 32, some 32, none⟩, none⟩

/-- An engine whose min_edge equals exactly the net edge (40/17 percent) of
an item priced exactly 15 percent below its 7-day median of 100. -/
def boundaryEngine : SignalEngine := ⟨-2, 5, 40/17, 15/100⟩

/-- A snapshot priced exactly 15 percent below the median of `boundaryHist`:
the deviation sits exactly on the hard-coded 15 percent drop threshold. -/
def boundaryItem : ItemData := ⟨some 85, some "X"⟩

/-- A snapshot priced 16 percent below the median of `boundaryHist`:
strictly inside both thresholds of the default engine. -/
def nearItem : ItemData := ⟨some 84, some "X"⟩

/-- A history with 7d median and mean 100 and 24h volume 10 (above the
minimum volume threshold 5). -/
def boundaryHist : History :=
  ⟨some ⟨none, none, some 10⟩, some ⟨some 100, some 100, none⟩, none⟩

/-- The TRAP signal produced for `exampleItem` against `lowVolumeHist`. -/
def trapW : TradingSignal :=
  { timestamp := 0
    item_name := "AK-47 | Redline (Field-Tested)"
    signal_type := SignalType.TRAP
    z_score := 0
    volume_24h := 2
    edge_net := 0
    spread := 0
    reason := "Volume insuffisant (" ++ toString (2:ℚ) ++ " ventes/24h)"
    confidence := 0 }

/-- An alert manager with the default 30-minute interval and an empty
ledger. -/
def freshManager : AlertManager := ⟨1800, fun _ => none⟩

/-- An alert manager whose ledger already records an alert at time 0 for
one key. -/
def busyManager : AlertManager :=
  ⟨1800, fun k => if k = "AK_UNDERPRICED" then some 0 else none⟩

/-- Claim C1, counterexample: an input whose deviation sits exactly on the
15 percent drop threshold and whose net edge equals exactly the configured
min_edge is NOT classified UNDERPRICED by `detect_signals` (the source
compares with strict `<` and `>`), contradicting the claimed inclusive
boundary. -/
theorem underpriced_inclusive_boundary_cex :
    (((100:ℚ) - 85) / 100) * 100 = 15 ∧
    calculate_edge 85 100 (12/100) (1/100) = 40/17 ∧
    boundaryEngine.min_edge = 40/17 ∧
    (boundaryHist.last_24_hours.getD emptyStats).volume.getD 0 ≥
      boundaryEngine.min_volume_24h ∧
    detect_signals boundaryEngine 0 boundaryItem (some boundaryHist) = none := by
  norm_num [calculate_edge, detect_signals, boundaryEngine, boundaryItem,
    boundaryHist, emptyStats]

/-- Claim C1, amended: under the volume and data-presence guards,
`SignalEngine.detect_signals` classifies UNDERPRICED exactly when the
deviation is STRICTLY above the hard-coded 15 percent drop threshold and
the net edge is STRICTLY above min_edge; `SkinportTracker.analyze_price`,
by contrast, uses inclusive boundaries: given a usable median and a
non-negative drop, it produces an alert exactly when drop_percent is at
least drop_threshold and edge_percent at least min_edge. -/
theorem underpriced_boundary_char :
    (∀ (e : SignalEngine) (now : ℚ) (item : ItemData) (h : History) (p m a : ℚ),
      item.min_price = some p → p ≠ 0 →
      (h.last_7_days.getD emptyStats).median = some m →
      (h.last_7_days.getD emptyStats).avg = some a →
      m ≠ 0 → a ≠ 0 →
      (h.last_24_hours.getD emptyStats).volume.getD 0 ≥ e.min_volume_24h →
      ((∃ s, detect_signals e now item (some h) = some s ∧
          s.signal_type = SignalType.UNDERPRICED) ↔
        ((m - p) / m) * 100 > 15 ∧
          calculate_edge p m (12/100) (1/100) > e.min_edge)) ∧
    (∀ (skin : String) (cp dt me fee now : ℚ) (h : History) (m : ℚ),
      (h.last_7_days.getD emptyStats).median = some m → m ≠ 0 →
      ((m - cp) / m) * 100 ≥ 0 →
      (analyze_price skin cp (some h) dt me fee now ≠ none ↔
        ((m - cp) / m) * 100 ≥ dt ∧ ((m - cp - m * fee) / cp) * 100 ≥ me)) := by
  constructor
  · intro e now item h p m a hp hp0 hm ha hm0 ha0 hv
    unfold detect_signals
    rw [hp]
    dsimp only
    rw [if_neg hp0, if_neg (not_lt.mpr hv), hm, ha]
    dsimp only
    rw [if_neg (by push_neg; exact ⟨hm0, ha0⟩)]
    have hflip : ((p - m) / m) * 100 = -(((m - p) / m) * 100) := by ring
    by_cases hC : ((p - m) / m) * 100 < -15 ∧
        calculate_edge p m (12/100) (1/100) > e.min_edge ∧
        (h.last_24_hours.getD emptyStats).volume.getD 0 ≥ e.min_volume_24h
    · rw [if_pos hC]
      constructor
      · intro _
        exact ⟨by linarith [hC.1], hC.2.1⟩
      · intro _
        exact ⟨_, rfl, rfl⟩
    · rw [if_neg hC]
      constructor
      · rintro ⟨s, hs, hty⟩
        exfalso
        rcases h24 : (h.last_24_hours.getD emptyStats).avg with _ | avg24
        · rw [h24] at hs; simp at hs
        · rw [h24] at hs
          dsimp only at hs
          split_ifs at hs
          all_goals
            first
              | exact Option.noConfusion hs
              | (obtain rfl := Option.some.inj hs; simp at hty)
      · rintro ⟨hdev, hedge⟩
        exact absurd ⟨by linarith, hedge, hv⟩ hC
  · intro skin cp dt me fee now h m hm hm0 hd
    unfold analyze_price
    dsimp only
    rw [hm]
    dsimp only
    rw [if_neg hm0, if_neg (not_lt.mpr hd)]
    split_ifs with hcond
    · exact iff_of_true (by simp) hcond
    · exact iff_of_false (by simp) hcond

/-- Claim C1, witness: both characterizations instantiated at concrete
inputs with all guards discharged. -/
theorem underpriced_boundary_char_witness :
    ((∃ s, detect_signals defaultEngine 0 nearItem (some boundaryHist) = some s ∧
        s.signal_type = SignalType.UNDERPRICED) ↔
      (((100:ℚ) - 84) / 100) * 100 > 15 ∧
        calculate_edge 84 100 (12/100) (1/100) > defaultEngine.min_edge) ∧
    (analyze_price "X" 84 (some boundaryHist) 15 3 (12/100) 0 ≠ none ↔
      (((100:ℚ) - 84) / 100) * 100 ≥ 15 ∧
        (((100:ℚ) - 84 - 100 * (12/100)) / 84) * 100 ≥ 3) :=
  ⟨underpriced_boundary_char.1 defaultEngine 0 nearItem boundaryHist 84 100 100
      rfl (by norm_num) rfl rfl (by norm_num) (by norm_num)
      (by norm_num [boundaryHist, emptyStats, defaultEngine]),
   underpriced_boundary_char.2 "X" 84 15 3 (12/100) 0 boundaryHist 100 rfl
      (by norm_num) (by norm_num)⟩

/-- Claim C2: for every snapshot whose current price is present (non-falsy)
and every history whose 24h volume is strictly below the configured minimum,
`detect_signals` returns the TRAP (insufficient-volume) classification with
deviation (z_score) 0, net edge 0 and confidence 0 — regardless of every
later step, the history being otherwise arbitrary. -/
theorem volume_gate_precedence (e : SignalEngine) (now : ℚ) (item : ItemData)
    (h : History) (p : ℚ) (hp : item.min_price = some p) (hp0 : p ≠ 0)
    (hv : (h.last_24_hours.getD emptyStats).volume.getD 0 < e.min_volume_24h) :
    (detect_signals e now item (some h)).map
      (fun s => (s.signal_type, s.z_score, s.edge_net, s.confidence, s.volume_24h)) =
    some (SignalType.TRAP, 0, 0, 0,
      (h.last_24_hours.getD emptyStats).volume.getD 0) := by
  unfold detect_signals
  rw [hp]
  dsimp only
  rw [if_neg hp0, if_pos hv]
  rfl

/-- Claim C2, witness: the spec's insufficient-volume example (price 26.50,
24h volume 2 < 5) yields TRAP with zero deviation, edge and confidence. -/
theorem volume_gate_precedence_witness :
    (detect_signals defaultEngine 0 exampleItem (some lowVolumeHist)).map
      (fun s => (s.signal_type, s.z_score, s.edge_net, s.confidence, s.volume_24h)) =
    some (SignalType.TRAP, 0, 0, 0, 2) := by
  have h := volume_gate_precedence defaultEngine 0 exampleItem lowVolumeHist (53/2)
    rfl (by norm_num) (by norm_num [lowVolumeHist, emptyStats, defaultEngine])
  simpa [lowVolumeHist, emptyStats] using h

/-- Claim C3, counterexample: at the spec's end-to-end input the net edge
given by the spec's own formula is 268/53, about 5.06 percent, which is not
approximately 4.94 percent (it differs by more than 0.1). -/
theorem end_to_end_edge_cex :
    calculate_edge (53/2) 32 (12/100) (1/100) = 268/53 ∧
    (1:ℚ)/10 < abs ((268:ℚ)/53 - 494/100) := by
  constructor
  · norm_num [calculate_edge]
  · rw [show (268:ℚ)/53 - 494/100 = 309/2650 by norm_num,
      abs_of_pos (by norm_num)]
    norm_num

/-- Claim C3, amended: the end-to-end example yields deviation 275/16
(about 17.19 percent), classification UNDERPRICED, net edge 268/53 (about
5.06 percent, not 4.94), and confidence 275/16 (about 17.19, under the 95
cap). -/
theorem end_to_end_example :
    (((32:ℚ) - 53/2) / 32) * 100 = 275/16 ∧
    (detect_signals defaultEngine 0 exampleItem (some exampleHist)).map
      (fun s => (s.signal_type, s.edge_net, s.confidence)) =
      some (SignalType.UNDERPRICED, 268/53, 275/16) ∧
    abs ((275:ℚ)/16 - 1719/100) ≤ 1/100 ∧
    abs ((268:ℚ)/53 - 506/100) ≤ 1/100 := by
  refine ⟨by norm_num, ?_, ?_, ?_⟩
  · norm_num [detect_signals, exampleItem, exampleHist, emptyStats,
      defaultEngine, calculate_edge]
    rw [abs_of_pos (by norm_num)]
    exact min_eq_left (by norm_num)
  · rw [show (275:ℚ)/16 - 1719/100 = -(1/400) by norm_num, abs_neg,
      abs_of_pos (by norm_num)]
    norm_num
  · rw [show (268:ℚ)/53 - 506/100 = -(9/2650) by norm_num, abs_neg,
      abs_of_pos (by norm_num)]
    norm_num

/-- Claim C4: evaluation of `_rate_limit_wait` at the failing input.  Three
calls for the same key arriving at simulated times 0, 10 and 46 are granted
at 0, 45 and 55: the gap between the second and third grants is 10 seconds,
less than the 45-second minimum interval, because the source records the
pre-sleep arrival time (10), not the grant time (45), as the new
last-request time. -/
theorem rate_gate_records_arrival_bug :
    grantTimes RATE_LIMIT_DELAY none [0, 10, 46] = [0, 45, 55] ∧
    (rateLimitWait RATE_LIMIT_DELAY (some 0) 10).1 = 45 ∧
    (rateLimitWait RATE_LIMIT_DELAY (some 0) 10).2 = some 10 ∧
    (55:ℚ) - 45 < RATE_LIMIT_DELAY := by
  norm_num [grantTimes, rateLimitWait, RATE_LIMIT_DELAY]

/-- Claim C5, counterexample: after a throttle response carrying a
server-suggested delay of 120 seconds on the snapshot endpoint, `get_items`
issues its retry after a fixed 60-second sleep — earlier than the suggested
delay, which exceeds the normal 45-second interval. -/
theorem throttle_override_cex :
    (get_items (ItemsResp.throttled (some 120)) (ItemsResp.ok [])).sleep_before_retry
      = some 60 ∧
    (get_items (ItemsResp.throttled (some 120)) (ItemsResp.ok [])).requests = 2 ∧
    (60:ℚ) < 120 ∧ RATE_LIMIT_DELAY < 120 :=
  ⟨rfl, rfl, by norm_num, by norm_num [RATE_LIMIT_DELAY]⟩

/-- Claim C5, amended: throttle handling is an inline sleep, not a rate-gate
registration.  The history fetch sleeps exactly the server-suggested
Retry-After before returning, with a conservative 120-second (two-minute)
fallback when the header is absent; the snapshot fetch always sleeps a
fixed 60 seconds before its single retry, ignoring any suggested delay. -/
theorem throttle_delay_handling :
    (∀ d : ℚ, (get_sales_history (HistoryResp.throttled (some d))).sleep_before_return
        = d) ∧
    (get_sales_history (HistoryResp.throttled none)).sleep_before_return = 120 ∧
    (60:ℚ) ≤ 120 ∧
    (∀ (h : Option ℚ) (r2 : ItemsResp),
      (get_items (ItemsResp.throttled h) r2).sleep_before_retry = some 60) := by
  refine ⟨fun d => rfl, rfl, by norm_num, fun h r2 => ?_⟩
  cases r2 <;> rfl

/-- Claim C6: on a 429, the snapshot fetch issues exactly one retry (two
requests in total) after the forced wait, while the history fetch issues no
retry (one request) and returns the throttled outcome (None), deferring the
subject to the next cycle. -/
theorem throttle_retry_asymmetry (h : Option ℚ) (r2 : ItemsResp) :
    (get_items (ItemsResp.throttled h) r2).requests = 2 ∧
    (get_items (ItemsResp.throttled h) r2).sleep_before_retry = some 60 ∧
    (get_sales_history (HistoryResp.throttled h)).requests = 1 ∧
    (get_sales_history (HistoryResp.throttled h)).result = none := by
  refine ⟨?_, ?_, rfl, rfl⟩ <;> cases r2 <;> rfl

/-- Claim C7: `should_send_alert` returns true iff no prior ledger entry
exists for the key or the elapsed time since the recorded last-sent time is
at least the minimum alert interval, a true result records `now` for the
key; and for a key with no prior entry the sequence true at t0, false at
t0 + 1, true at t0 + minInterval + 1 holds. -/
theorem alert_gate_policy :
    (∀ (m : AlertManager) (key : String) (now : ℚ),
      ((should_send_alert m key now).1 = true ↔
        m.last_alerts key = none ∨
          ∃ t, m.last_alerts key = some t ∧ now - t ≥ m.min_alert_interval) ∧
      ((should_send_alert m key now).1 = true →
        (should_send_alert m key now).2.last_alerts key = some now)) ∧
    (∀ (m : AlertManager) (k : String) (t0 : ℚ),
      m.last_alerts k = none → 1 < m.min_alert_interval →
      (should_send_alert m k t0).1 = true ∧
      (should_send_alert (should_send_alert m k t0).2 k (t0 + 1)).1 = false ∧
      (should_send_alert (should_send_alert (should_send_alert m k t0).2 k
        (t0 + 1)).2 k (t0 + m.min_alert_interval + 1)).1 = true) := by
  constructor
  · intro m key now
    unfold should_send_alert
    cases hm : m.last_alerts key with
    | none =>
      refine ⟨iff_of_true rfl (Or.inl rfl), fun _ => ?_⟩
      simp
    | some t =>
      dsimp only
      split_ifs with hlt
      · refine ⟨iff_of_false (by simp) ?_, fun hcontra => by simp at hcontra⟩
        rintro (hnone | ⟨t', ht', hge⟩)
        · exact hnone
        · obtain rfl := Option.some.inj ht'
          exact absurd hge (not_le.mpr hlt)
      · refine ⟨iff_of_true rfl (Or.inr ⟨t, rfl, not_lt.mp hlt⟩), fun _ => ?_⟩
        simp
  · intro m k t0 h0 hI
    have e1 : should_send_alert m k t0 =
        (true, { m with last_alerts := fun k' => if k' = k then some t0
                          else m.last_alerts k' }) := by
      unfold should_send_alert
      rw [h0]
    have e2 : should_send_alert
        { m with last_alerts := fun k' => if k' = k then some t0
                   else m.last_alerts k' } k (t0 + 1) =
        (false, { m with last_alerts := fun k' => if k' = k then some t0
                           else m.last_alerts k' }) := by
      unfold should_send_alert
      dsimp only
      rw [if_pos (rfl : k = k)]
      dsimp only
      rw [if_pos (show t0 + 1 - t0 < m.min_alert_interval by linarith)]
    refine ⟨by rw [e1], by rw [e1, e2], ?_⟩
    rw [e1, e2]
    unfold should_send_alert
    dsimp only
    rw [if_pos (rfl : k = k)]
    dsimp only
    rw [if_neg (show ¬(t0 + m.min_alert_interval + 1 - t0 <
        m.min_alert_interval) by push_neg; linarith)]

/-- Claim C7, witness: the true/false/true sequence at a fresh key with the
default 30-minute interval, starting at time 0. -/
theorem alert_gate_policy_witness :
    (should_send_alert freshManager "AK_UNDERPRICED" 0).1 = true ∧
    (should_send_alert (should_send_alert freshManager "AK_UNDERPRICED" 0).2
      "AK_UNDERPRICED" (0 + 1)).1 = false ∧
    (should_send_alert (should_send_alert (should_send_alert freshManager
      "AK_UNDERPRICED" 0).2 "AK_UNDERPRICED" (0 + 1)).2 "AK_UNDERPRICED"
      (0 + freshManager.min_alert_interval + 1)).1 = true :=
  alert_gate_policy.2 freshManager "AK_UNDERPRICED" 0 rfl
    (by norm_num [freshManager])

/-- Claim C8: every signal the engine produces has confidence at most 95
when UNDERPRICED, at most 90 when MOMENTUM, and always within [0, 100]. -/
theorem confidence_clamp (e : SignalEngine) (now : ℚ) (item : ItemData)
    (history : Option History) (s : TradingSignal)
    (hs : detect_signals e now item history = some s) :
    (s.signal_type = SignalType.UNDERPRICED → s.confidence ≤ 95) ∧
    (s.signal_type = SignalType.MOMENTUM → s.confidence ≤ 90) ∧
    0 ≤ s.confidence ∧ s.confidence ≤ 100 := by
  unfold detect_signals at hs
  cases history with
  | none => exact absurd hs (by simp)
  | some h =>
    cases hmp : item.min_price with
    | none => rw [hmp] at hs; exact absurd hs (by simp)
    | some p =>
      rw [hmp] at hs
      dsimp only at hs
      split at hs
      · exact absurd hs (by simp)
      · split at hs
        · obtain rfl : _ = s := Option.some.inj hs
          refine ⟨by simp, by simp, by norm_num, by norm_num⟩
        · split at hs
          · rename_i median_7d avg_7d heq
            split at hs
            · exact absurd hs (by simp)
            · split at hs
              · obtain rfl : _ = s := Option.some.inj hs
                refine ⟨fun _ => min_le_right _ _, by simp, ?_, ?_⟩
                · exact le_min (abs_nonneg _) (by norm_num)
                · exact le_trans (min_le_right _ _) (by norm_num)
              · split at hs
                · rename_i avg_24h heq2
                  split at hs
                  · rename_i hcond
                    split at hs
                    · rename_i hmom
                      obtain rfl : _ = s := Option.some.inj hs
                      refine ⟨by simp, fun _ => min_le_right _ _, ?_, ?_⟩
                      · refine le_min (by nlinarith [hmom.1]) (by norm_num)
                      · exact le_trans (min_le_right _ _) (by norm_num)
                    · exact absurd hs (by simp)
                  · exact absurd hs (by simp)
                · exact absurd hs (by simp)
          · exact absurd hs (by simp)

/-- Claim C8, witness: the TRAP signal of the insufficient-volume example
satisfies all the clamp bounds. -/
theorem confidence_clamp_witness :
    (trapW.signal_type = SignalType.UNDERPRICED → trapW.confidence ≤ 95) ∧
    (trapW.signal_type = SignalType.MOMENTUM → trapW.confidence ≤ 90) ∧
    0 ≤ trapW.confidence ∧ trapW.confidence ≤ 100 :=
  confidence_clamp defaultEngine 0 exampleItem (some lowVolumeHist) trapW
    (by norm_num [detect_signals, exampleItem, lowVolumeHist, emptyStats,
          defaultEngine, trapW])

/-- Claim C9: for a fixed engine, snapshot and history, `detect_signals`
evaluated at any two clock readings returns the same result in every field
except the timestamp: the classification, deviation, volume, edge, spread,
reason and confidence depend only on the inputs. -/
theorem detect_signals_deterministic (e : SignalEngine) (t₁ t₂ : ℚ)
    (item : ItemData) (history : Option History) :
    (detect_signals e t₁ item history).map signalData =
    (detect_signals e t₂ item history).map signalData := by
  unfold detect_signals
  cases history with
  | none => rfl
  | some h =>
    cases item.min_price with
    | none => rfl
    | some p =>
      dsimp only
      repeat' split
      all_goals rfl

/-- Claim C10: whenever `should_send_alert` returns false, the manager
state — the whole anti-spam ledger and the interval — is returned exactly
unchanged. -/
theorem suppressed_alert_frame (m : AlertManager) (key : String) (now : ℚ)
    (h : (should_send_alert m key now).1 = false) :
    (should_send_alert m key now).2 = m := by
  unfold should_send_alert at h ⊢
  cases hm : m.last_alerts key with
  | none =>
    rw [hm] at h
    exact Bool.noConfusion h
  | some t =>
    rw [hm] at h
    dsimp only at h ⊢
    split_ifs at h ⊢
    rfl

/-- Claim C10, witness: a suppressed attempt one second after a recorded
alert leaves the manager unchanged. -/
theorem suppressed_alert_frame_witness :
    (should_send_alert busyManager "AK_UNDERPRICED" 1).2 = busyManager :=
  suppressed_alert_frame busyManager "AK_UNDERPRICED" 1
    (by norm_num [should_send_alert, busyManager])

end Skinport
